import Mathlib

/-!
Verification of the EUC Leadership Dashboard participant-journey pipeline.

This file gives a shallow embedding, in Lean 4, of the core of the
repository: the journey builder (`src/etl/journey.py`), the FPL poverty
model (`journey.py` and `analytics/metrics.py`), and the four-tier ROI
methodology (`analytics/roi.py`).  Python numbers are modelled as `ℚ`,
missing values (`None`/`NaN`) as `Option`, dates as integer day numbers,
and Python truthiness (`or` / `if not x:` on numbers and strings) by the
explicit helpers below.  Each definition is translated directly from the
named source function; theorems about the frozen specification claims
follow the definitions.
-/

namespace EUC

/-- Python truthiness of an optional number: `None` and `0` are falsy. -/
def qTruthy : Option ℚ → Bool
  | none => false
  | some x => decide (x ≠ 0)

/-- Python `a or d` for an optional number `a` and a number `d`. -/
def pyOrQ (a : Option ℚ) (d : ℚ) : ℚ :=
  match a with
  | none => d
  | some x => if x = 0 then d else x

/-- Python `a or b` for two optional numbers (dict lookups). -/
def qOr (a b : Option ℚ) : Option ℚ :=
  if qTruthy a then a else b

/-- Python truthiness of an optional string: `None` and `""` are falsy. -/
def sTruthy : Option String → Bool
  | none => false
  | some s => decide (s ≠ "")

/-- Python `a or b` for optional dates; datetime objects are always truthy. -/
def dOr (a b : Option ℤ) : Option ℤ :=
  match a with
  | some x => some x
  | none => b

/-- Python `int(q)`: truncation toward zero. -/
def pyInt (q : ℚ) : ℤ :=
  if q < 0 then ⌈q⌉ else ⌊q⌋

/-- Round a rational to the nearest integer, ties to even (Python rounding). -/
def roundHalfEven (q : ℚ) : ℤ :=
  let f : ℤ := ⌊q⌋
  let frac : ℚ := q - f
  if frac < 1/2 then f
  else if frac > 1/2 then f + 1
  else if f % 2 = 0 then f else f + 1

/-- Python `round(x, n)` modelled on exact rationals. -/
def pyRound (x : ℚ) (n : ℕ) : ℚ :=
  (roundHalfEven (x * 10 ^ n) : ℚ) / 10 ^ n

/-! ## FPL poverty model -/

/-- 2024 federal poverty guideline base (`journey.py` / `metrics.py`). -/
def FPL_BASE : ℚ := 15060

/-- Per-additional-person increment of the 2024 guideline. -/
def FPL_PER_ADDITIONAL : ℚ := 5380

/-- Household size as used inside `calculate_fpl_pct`:
`max(1, int(household_size)) if pd.notna(household_size) else 3`. -/
def fpl_household (household_size : Option ℚ) : ℤ :=
  match household_size with
  | some h => max 1 (pyInt h)
  | none => 3

/-- `journey.calculate_fpl_pct`: FPL percentage from annual income and
household size; `None` when income is missing or `<= 0`. -/
def calculate_fpl_pct (annual_income : Option ℚ) (household_size : Option ℚ) : Option ℚ :=
  match annual_income with
  | none => none
  | some inc =>
    if inc ≤ 0 then none
    else
      let hh : ℤ := fpl_household household_size
      some (inc / (FPL_BASE + FPL_PER_ADDITIONAL * ((hh : ℚ) - 1)) * 100)

/-- `metrics.get_poverty_line`: poverty line for a household size,
clamped below at 1. -/
def get_poverty_line (household_size : ℤ) : ℚ :=
  let hh : ℤ := if household_size < 1 then 1 else household_size
  FPL_BASE + FPL_PER_ADDITIONAL * ((hh : ℚ) - 1)

/-- `metrics.calculate_fpl`: returns `None` when income or household size is
missing, the household size is `< 1`, or the income is `< 0` (note: strict,
so an income of exactly 0 is accepted and yields `0.0`). -/
def calculate_fpl (annual_income : Option ℚ) (household_size : Option ℚ) : Option ℚ :=
  match annual_income, household_size with
  | none, _ => none
  | some _, none => none
  | some inc, some hh =>
    if hh < 1 then none
    else if inc < 0 then none
    else some (inc / get_poverty_line (pyInt hh) * 100)

/-! ## Empower FPL-format detection (`journey.process_empower_data`) -/

/-- Insert into a sorted list of rationals (ascending). -/
def insertQ (x : ℚ) : List ℚ → List ℚ
  | [] => [x]
  | y :: ys => if x ≤ y then x :: y :: ys else y :: insertQ x ys

/-- Insertion sort for rationals. -/
def sortQ (l : List ℚ) : List ℚ :=
  l.foldr insertQ []

/-- Median of a list of rationals, as computed by `pandas.Series.median`
over the non-null values: `None` on an empty list, the middle element for
an odd count, the mean of the two middle elements for an even count. -/
def medianQ (l : List ℚ) : Option ℚ :=
  let s := sortQ l
  let n := s.length
  if n = 0 then none
  else if n % 2 = 1 then s.get? (n / 2)
  else
    match s.get? (n / 2 - 1), s.get? (n / 2) with
    | some a, some b => some ((a + b) / 2)
    | _, _ => none

/-- Median of the non-null values of an optional-valued column. -/
def medianOfNonNull (col : List (Option ℚ)) : Option ℚ :=
  medianQ (col.filterMap id)

/-- The format-detection step applied to one Empower FPL column
(`journey.py` lines 143-163): when the median of the non-null values is
below 10 the whole column is multiplied by 100, otherwise it is unchanged. -/
def detectAndScaleFpl (col : List (Option ℚ)) : List (Option ℚ) :=
  match medianOfNonNull col with
  | some m => if m < 10 then col.map (Option.map fun x => x * 100) else col
  | none => col

/-! ## Source rows for `build_single_journey`

The per-participant records, after the field-resolver has matched and
coerced the raw columns (`process_empower_data`, `get_field`,
`get_numeric`, `parse_date`).  Missing / unparseable values are `none`. -/

/-- One Empower extract row, after `process_empower_data` derived the
`empower_*` columns (`pd.notna` guarded, so `Option`). -/
structure EmpowerRow where
  wage_gain : Option ℚ
  fpl_current : Option ℚ
  fpl_enrollment : Option ℚ
  household_size : Option ℚ
  county : Option String
  navigator : Option String
deriving Repr, DecidableEq

/-- One intake-form row, fields already resolved by `get_field` / `get_numeric`. -/
structure IntakeRow where
  county : Option String
  enrollment_status : Option String
  submission_date : Option ℤ
  adults : Option ℚ
  children : Option ℚ
deriving Repr, DecidableEq

/-- One baseline-assessment row. -/
structure BaselineRow where
  submission_date : Option ℤ
  hourly_wage : Option ℚ
deriving Repr, DecidableEq

/-- One quarterly-assessment row. -/
structure QuarterlyRec where
  submission_date : Option ℤ
  monthly_income : Option ℚ
deriving Repr, DecidableEq

/-- The journey `dict` built by `build_single_journey`; a `none` field is a
key that is absent or explicitly `None` (indistinguishable to
`journey.get`).  `has_positive_income_change` is `Option Bool` because the
code tests key presence (`'has_positive_income_change' not in journey`). -/
structure Journey where
  participant_id : ℤ := 0
  income_change_annual : Option ℚ := none
  has_positive_income_change : Option Bool := none
  current_fpl : Option ℚ := none
  enrollment_fpl : Option ℚ := none
  fpl_change : Option ℚ := none
  county : Option String := none
  household_size : Option ℚ := none
  navigator : Option String := none
  enrollment_status : Option String := none
  enrollment_date : Option ℤ := none
  household_adults : Option ℚ := none
  household_children : Option ℚ := none
  baseline_date : Option ℤ := none
  baseline_hourly_wage : Option ℚ := none
  baseline_monthly_income : Option ℚ := none
  first_quarterly_date : Option ℤ := none
  first_quarterly_monthly_income : Option ℚ := none
  last_quarterly_date : Option ℤ := none
  last_quarterly_monthly_income : Option ℚ := none
  quarterly_count : Option ℕ := none
  enrollment_monthly_income : Option ℚ := none
  current_monthly_income : Option ℚ := none
  income_change_monthly : Option ℚ := none
  days_in_program : Option ℤ := none
  is_graduate : Bool := false
  has_positive_fpl_change : Bool := false
  cliff_tier : String := ""
  total_assessments : ℕ := 0
deriving Repr, DecidableEq

/-! ## The per-source merge steps of `build_single_journey`, in code order -/

/-- The `==== EMPOWER DATA ====` block (`journey.py` lines 214-242). -/
def empowerStep : Option EmpowerRow → Journey → Journey
  | none, j => j
  | some e, j =>
    let j := match e.wage_gain with
      | some w =>
        { j with income_change_annual := some w
                 has_positive_income_change := some (decide (w > 0)) }
      | none => j
    let j := match e.fpl_current with
      | some c => { j with current_fpl := some c }
      | none => j
    let j := match e.fpl_enrollment with
      | some c => { j with enrollment_fpl := some c }
      | none => j
    let j := if qTruthy j.current_fpl && qTruthy j.enrollment_fpl then
        { j with fpl_change := some (j.current_fpl.getD 0 - j.enrollment_fpl.getD 0) }
      else j
    let j := match e.county with
      | some c => { j with county := some c }
      | none => j
    let j := match e.household_size with
      | some h => { j with household_size := some h }
      | none => j
    match e.navigator with
    | some n => { j with navigator := some n }
    | none => j

/-- The `==== ENROLLMENT INFO FROM INTAKE ====` block (lines 244-256). -/
def intakeStep : Option IntakeRow → Journey → Journey
  | none, j => j
  | some r, j =>
    let j := if sTruthy j.county then j else { j with county := r.county }
    let j := { j with enrollment_status := r.enrollment_status
                      enrollment_date := r.submission_date
                      household_adults := r.adults
                      household_children := r.children }
    if qTruthy j.household_size then j
    else
      let hs : ℚ := pyOrQ j.household_adults 1 + pyOrQ j.household_children 2
      { j with household_size := some hs }

/-- The `==== BASELINE ASSESSMENT ====` block (lines 258-264). -/
def baselineStep : Option BaselineRow → Journey → Journey
  | none, j => j
  | some b, j =>
    let j := { j with baseline_date := b.submission_date
                      baseline_hourly_wage := b.hourly_wage }
    if qTruthy j.baseline_hourly_wage then
      let m : ℚ := j.baseline_hourly_wage.getD 0 * 40 * (433/100)
      { j with baseline_monthly_income := some m }
    else j

/-- Date comparison used to sort quarterly records; `NaT` sorts last. -/
def dateLe : Option ℤ → Option ℤ → Bool
  | none, none => true
  | none, some _ => false
  | some _, none => true
  | some a, some b => decide (a ≤ b)

/-- Insert a quarterly record into a date-sorted list. -/
def insertByDate (r : QuarterlyRec) : List QuarterlyRec → List QuarterlyRec
  | [] => [r]
  | x :: xs =>
    if dateLe r.submission_date x.submission_date then r :: x :: xs
    else x :: insertByDate r xs

/-- `quarterly_recs.sort_values('_date')` (insertion sort by parsed date). -/
def sortQuarterly (l : List QuarterlyRec) : List QuarterlyRec :=
  l.foldr insertByDate []

/-- The `==== QUARTERLY ASSESSMENTS ====` block (lines 266-282). -/
def quarterlyStep (q : List QuarterlyRec) (j : Journey) : Journey :=
  match sortQuarterly q with
  | [] => j
  | x :: xs =>
    let lastq := (x :: xs).getLast (List.cons_ne_nil x xs)
    { j with first_quarterly_date := x.submission_date
             first_quarterly_monthly_income := x.monthly_income
             last_quarterly_date := lastq.submission_date
             last_quarterly_monthly_income := lastq.monthly_income
             quarterly_count := some (x :: xs).length }

/-- The income part of `==== FALLBACK CALCULATIONS ====` (lines 284-294),
guarded by `if not journey.get('income_change_annual')`. -/
def incomeFallbackStep (j : Journey) : Journey :=
  if qTruthy j.income_change_annual then j
  else
    let enr := qOr j.first_quarterly_monthly_income j.baseline_monthly_income
    let cur := qOr j.last_quarterly_monthly_income j.first_quarterly_monthly_income
    let j := { j with enrollment_monthly_income := enr
                      current_monthly_income := cur }
    if qTruthy j.enrollment_monthly_income && qTruthy j.current_monthly_income then
      let chg : ℚ := j.current_monthly_income.getD 0 - j.enrollment_monthly_income.getD 0
      { j with income_change_monthly := some chg
               income_change_annual := some (chg * 12)
               has_positive_income_change := some (decide (pyOrQ (some (chg * 12)) 0 > 0)) }
    else j

/-- The FPL part of the fallback block (lines 296-306), guarded by
`if not journey.get('current_fpl')`. -/
def fplFallbackStep (j : Journey) : Journey :=
  if qTruthy j.current_fpl then j
  else
    let hh : ℚ := pyOrQ j.household_size 3
    let j := if qTruthy j.enrollment_monthly_income then
        let efpl := calculate_fpl_pct (some (j.enrollment_monthly_income.getD 0 * 12)) (some hh)
        { j with enrollment_fpl := efpl }
      else j
    let j := if qTruthy j.current_monthly_income then
        let cfpl := calculate_fpl_pct (some (j.current_monthly_income.getD 0 * 12)) (some hh)
        { j with current_fpl := cfpl }
      else j
    if qTruthy j.enrollment_fpl && qTruthy j.current_fpl then
      { j with fpl_change := some (j.current_fpl.getD 0 - j.enrollment_fpl.getD 0) }
    else j

/-- The `==== DAYS IN PROGRAM ====` block (lines 308-314): coalesce
(`or`-chain) of dates, not min/max. -/
def daysStep (j : Journey) : Journey :=
  let enrollment_date := dOr (dOr j.enrollment_date j.baseline_date) j.first_quarterly_date
  let last_date := dOr (dOr j.last_quarterly_date j.first_quarterly_date) j.baseline_date
  match enrollment_date, last_date with
  | some a, some b => { j with days_in_program := some (b - a) }
  | _, _ => { j with days_in_program := none }

/-- The cliff-tier classifier of lines 323-343. -/
def classify_cliff_tier (is_confirmed_graduate : Bool) (fpl : Option ℚ) : String :=
  if is_confirmed_graduate then "graduated"
  else match fpl with
  | none => "unknown"
  | some f =>
    if f ≥ 225 then "graduated"
    else if f ≥ 185 then "near_graduation"
    else if f ≥ 150 then "deep_cliff"
    else if f ≥ 130 then "liheap_childcare"
    else if f ≥ 100 then "snap_tenncare"
    else if f ≥ 50 then "deep_poverty"
    else "extreme_poverty"

/-- The `==== OUTCOME CLASSIFICATIONS ====` block (lines 316-343). -/
def classifyStep (is_confirmed_graduate : Bool) (j : Journey) : Journey :=
  let hpic : Bool := match j.has_positive_income_change with
    | some b => b
    | none => decide (pyOrQ j.income_change_annual 0 > 0)
  { j with
    is_graduate := is_confirmed_graduate || decide (pyOrQ j.current_fpl 0 ≥ 225)
    has_positive_income_change := some hpic
    has_positive_fpl_change := decide (pyOrQ j.fpl_change 0 > 0)
    cliff_tier := classify_cliff_tier is_confirmed_graduate j.current_fpl }

/-- The assessment count of lines 345-350. -/
def assessmentsStep (hasBaseline : Bool) (quarterlyCount colCount : ℕ) (j : Journey) : Journey :=
  { j with total_assessments := (if hasBaseline then 1 else 0) + quarterlyCount + colCount }

/-- `journey.build_single_journey`: fold the per-participant records from
every source, in the code's priority order, into one `Journey`. -/
def build_single_journey (pid : ℤ) (graduate_ids : List ℤ) (empower : Option EmpowerRow)
    (intake : Option IntakeRow) (baseline : Option BaselineRow)
    (quarterly : List QuarterlyRec) (col_count : ℕ) : Journey :=
  let is_confirmed_graduate := graduate_ids.contains pid
  assessmentsStep baseline.isSome quarterly.length col_count
    (classifyStep is_confirmed_graduate
      (daysStep
        (fplFallbackStep
          (incomeFallbackStep
            (quarterlyStep quarterly
              (baselineStep baseline
                (intakeStep intake
                  (empowerStep empower { participant_id := pid }))))))))

/-! ## ROI methodology (`analytics/roi.py`) -/

/-- A value in the ROI output: either a number or the "N/A" sentinel that
replaces a Python `float('inf')` at output time. -/
inductive RVal where
  | num : ℚ → RVal
  | na : RVal
deriving Repr, DecidableEq

/-- `TAX_RATES["fica_total"]`. -/
def fica_total : ℚ := 153/1000

/-- `TAX_RATES["federal_income_effective"]`. -/
def federal_income_effective : ℚ := 10/100

/-- `TAX_RATES["state_income"]` (Tennessee: none). -/
def state_income : ℚ := 0

/-- `TAX_RATES["sales_tax_rate"]`. -/
def sales_tax_rate : ℚ := 8/100

/-- `TAX_RATES["sales_tax_spending_share"]`. -/
def sales_tax_spending_share : ℚ := 60/100

/-- `BENEFITS_VALUES["tenncare_adult"]`. -/
def tenncare_adult : ℚ := 6000

/-- `BENEFITS_VALUES["snap_household"]`. -/
def snap_household : ℚ := 5500

/-- `BENEFITS_VALUES["tanf_cash"]`. -/
def tanf_cash : ℚ := 2400

/-- `BENEFITS_VALUES["childcare_full"]`. -/
def childcare_full : ℚ := 4000

/-- `BENEFITS_VALUES["childcare_reduced"]`. -/
def childcare_reduced : ℚ := 2000

/-- `metrics.PROGRAM_INVESTMENT`. -/
def PROGRAM_INVESTMENT : ℚ := 25000000

/-- The `metrics` sub-dict of the Tier 1 result. -/
structure Tier1Metrics where
  documented_annual_wage_gains : ℚ
  annual_return_per_dollar_invested : ℚ
  break_even_years_undiscounted : RVal
  cost_per_dollar_income_generated : RVal
deriving Repr, DecidableEq

/-- The Tier 1 result object (methodology, audience, metrics, caveats). -/
structure Tier1Output where
  methodology : String
  appropriate_audience : String
  investment_denominator : ℚ
  metrics : Tier1Metrics
  caveats : List String
deriving Repr, DecidableEq

/-- `roi.calculate_tier1_conservative`: measured wage gains only.  The
internal `float('inf')` produced when gains are zero is modelled as
`none` and becomes the `"N/A"` sentinel (`RVal.na`) in the output. -/
def calculate_tier1_conservative (annual_wage_gains investment : ℚ) : Tier1Output :=
  let annual_return : ℚ := if investment > 0 then annual_wage_gains / investment else 0
  let break_even : Option ℚ :=
    if annual_wage_gains > 0 then some (investment / annual_wage_gains) else none
  let cost_per_dollar : Option ℚ :=
    if annual_wage_gains > 0 then some (investment / annual_wage_gains) else none
  { methodology := "Measured annual wage gains only. No projections."
    appropriate_audience := "Skeptical funders, evaluators, legislators wanting floor estimates"
    investment_denominator := investment
    metrics :=
      { documented_annual_wage_gains := pyRound annual_wage_gains 0
        annual_return_per_dollar_invested := pyRound annual_return 4
        break_even_years_undiscounted :=
          match break_even with
          | some x => RVal.num (pyRound x 2)
          | none => RVal.na
        cost_per_dollar_income_generated :=
          match cost_per_dollar with
          | some x => RVal.num (pyRound x 2)
          | none => RVal.na }
    caveats :=
      ["Assumes all measured wage gains persist for at least 1 year",
       "Does not account for what would have happened without program (no RCT yet)",
       "Uses full $25M investment as denominator, not spent-to-date"] }

/-- One per-tier benefits-savings entry of the Tier 2 result. -/
structure TierSavings where
  count : ℕ
  per_family_savings : ℚ
  total : ℚ
deriving Repr, DecidableEq

/-- The Tier 2 (taxpayer) result object. -/
structure Tier2Output where
  methodology : String
  appropriate_audience : String
  investment_denominator : ℚ
  total_tax : ℚ
  graduates_225plus : TierSavings
  tier2_150plus : TierSavings
  tier3_100plus : TierSavings
  tier4_improved : TierSavings
  total_benefits : ℚ
  total_taxpayer : ℚ
  annual_return_per_dollar : ℚ
  break_even_years : RVal
  caveats : List String
deriving Repr, DecidableEq

/-- `roi.calculate_tier2_taxpayer`: tax revenue on the wage gains plus
benefits-cost avoidance per FPL tier.  `fpl_tier_counts` models the
Python dict via total lookup (`dict.get(key, 0)`); note the lookup keys
are `"graduated"`, `"near_graduation"`, `"working_progress"` and
`"snap_cliff"`. -/
def calculate_tier2_taxpayer (annual_wage_gains : ℚ) (fpl_tier_counts : String → ℕ)
    (investment : ℚ) : Tier2Output :=
  let fica := annual_wage_gains * fica_total
  let federal := annual_wage_gains * federal_income_effective
  let state := annual_wage_gains * state_income
  let sales := annual_wage_gains * sales_tax_rate * sales_tax_spending_share
  let total_tax := fica + federal + state + sales
  let grad_count := fpl_tier_counts "graduated"
  let grad_savings : ℚ :=
    (grad_count : ℚ) * (tenncare_adult + snap_household + tanf_cash + childcare_full)
  let tier2_count := fpl_tier_counts "near_graduation"
  let tier2_savings : ℚ :=
    (tier2_count : ℚ) * (snap_household + tanf_cash + childcare_reduced)
  let tier3_count := fpl_tier_counts "working_progress"
  let tier3_savings : ℚ := (tier3_count : ℚ) * (tanf_cash + snap_household * (5/10))
  let tier4_count := fpl_tier_counts "snap_cliff"
  let tier4_savings : ℚ := (tier4_count : ℚ) * 1000
  let total_benefits := grad_savings + tier2_savings + tier3_savings + tier4_savings
  let total_taxpayer := total_tax + total_benefits
  { methodology := "Tax revenue from wage gains + estimated benefits cost avoidance by FPL tier"
    appropriate_audience := "State legislators, TANF administrators, taxpayer advocates"
    investment_denominator := investment
    total_tax := pyRound total_tax 0
    graduates_225plus :=
      { count := grad_count, per_family_savings := 17900, total := pyRound grad_savings 0 }
    tier2_150plus :=
      { count := tier2_count, per_family_savings := 9900, total := pyRound tier2_savings 0 }
    tier3_100plus :=
      { count := tier3_count, per_family_savings := 5150, total := pyRound tier3_savings 0 }
    tier4_improved :=
      { count := tier4_count, per_family_savings := 1000, total := pyRound tier4_savings 0 }
    total_benefits := total_benefits
    total_taxpayer := pyRound total_taxpayer 0
    annual_return_per_dollar :=
      if investment > 0 then pyRound (total_taxpayer / investment) 4 else 0
    break_even_years :=
      if total_taxpayer > 0 then RVal.num (pyRound (investment / total_taxpayer) 1) else RVal.na
    caveats :=
      ["Benefits savings are ESTIMATES based on FPL thresholds",
       "Actual savings depend on individual benefit receipt and recertification timing",
       "Does not account for what would have happened without program",
       "TN-specific benefit levels used (lower than national average)"] }

/-- `PROJECTION_ASSUMPTIONS["discount_rate"]`. -/
def discount_rate : ℚ := 3/100

/-- Present-value annuity factor `(1 - (1 + r) ** -n) / r` over `n` years. -/
def pv_factor (r : ℚ) (n : ℕ) : ℚ :=
  (1 - ((1 + r) ^ n)⁻¹) / r

/-- The piecewise wage-fade present value used by Tiers 3 and 4
(100% years 1-5, 80% years 6-10, 60% years 11-25). -/
def pv_with_fade (annual_wage_gains : ℚ) : ℚ :=
  annual_wage_gains * pv_factor discount_rate 5 +
    annual_wage_gains * (8/10) * pv_factor discount_rate 5 / (1 + discount_rate) ^ 5 +
    annual_wage_gains * (6/10) * pv_factor discount_rate 15 / (1 + discount_rate) ^ 10

/-- The Tier 3 (lifecycle) result object. -/
structure Tier3Output where
  methodology : String
  appropriate_audience : String
  investment_denominator : ℚ
  full_persistence_pv : ℚ
  with_fade_pv : ℚ
  caveats : List String
deriving Repr, DecidableEq

/-- `roi.calculate_tier3_lifecycle`: wage gains projected over 25 working
years at the configured discount rate, with and without fade. -/
def calculate_tier3_lifecycle (annual_wage_gains investment : ℚ) : Tier3Output :=
  let lifetime_pv_full := annual_wage_gains * pv_factor discount_rate 25
  { methodology := "Annual wage gains projected over working lifetime with discount rate"
    appropriate_audience := "Workforce development funders, program comparison"
    investment_denominator := investment
    full_persistence_pv := pyRound lifetime_pv_full 0
    with_fade_pv := pyRound (pv_with_fade annual_wage_gains) 0
    caveats :=
      ["PROJECTION: Assumes wage gains persist; research shows effects often fade",
       "Working years assumed at 25; actual varies by participant age",
       "Without RCT, cannot claim causation - association only",
       "Sensitivity analysis recommended for key assumptions"] }

/-- The Tier 4 (intergenerational) result object. -/
structure Tier4Output where
  methodology : String
  appropriate_audience : String
  investment_denominator : ℚ
  total_children : ℤ
  intergenerational_pv : ℚ
  total_societal_pv : ℚ
  caveats : List String
  red_flag : Option String
deriving Repr, DecidableEq

/-- `roi.calculate_tier4_intergenerational`: Chetty-coefficient projection
of child earnings, combined with the with-fade lifecycle PV; a warning
flag is attached when the societal ROI exceeds 10:1. -/
def calculate_tier4_intergenerational (annual_wage_gains avg_wage_gain : ℚ)
    (total_families : ℤ) (investment : ℚ) : Tier4Output :=
  let chetty_coefficient : ℚ := 13/1000
  let avg_children : ℚ := 2
  let total_children : ℤ := pyInt ((total_families : ℚ) * avg_children)
  let income_increase_thousands := avg_wage_gain / 1000
  let assumed_child_baseline_earnings : ℚ := 40000
  let earnings_boost_per_child :=
    assumed_child_baseline_earnings * chetty_coefficient * income_increase_thousands
  let total_child_earnings_boost := earnings_boost_per_child * (total_children : ℚ)
  let pvf := pv_factor discount_rate 30
  let pv_factor_delayed := pvf / (1 + discount_rate) ^ 15
  let intergenerational_pv := total_child_earnings_boost * pv_factor_delayed
  let total_societal := pv_with_fade annual_wage_gains + intergenerational_pv
  { methodology := "Includes research-based projections of child outcome improvements"
    appropriate_audience := "Visionary funders, long-term impact investors"
    investment_denominator := investment
    total_children := total_children
    intergenerational_pv := pyRound intergenerational_pv 0
    total_societal_pv := pyRound total_societal 0
    caveats :=
      ["HIGHLY SPECULATIVE: Intergenerational effects are research-based projections, not measured",
       "Chetty research based on different populations; applicability to rural TN uncertain",
       "Effects won\x27t be observable for 15-20 years",
       "Represents potential, not proven impact",
       "Should not be primary ROI cited; use for \x27comprehensive potential\x27 framing"]
    red_flag :=
      if total_societal / investment > 10 then
        some "WARNING: ROI >10:1 may indicate overclaiming. Verify assumptions."
      else none }

/-- The top-level keys of the dict returned by
`roi.calculate_sensitivity_analysis` (its `return` statement, lines
429-443): `methodology`, `attribution`, `wage_persistence`,
`denominator` - and nothing else. -/
def sensitivity_output_keys : List String :=
  ["methodology", "attribution", "wage_persistence", "denominator"]

/-- One attribution scenario of the sensitivity analysis. -/
structure AttributionScenario where
  pct : ℕ
  attributed_annual_gains : ℚ
  implied_lifecycle_roi : ℚ
deriving Repr, DecidableEq

/-- The dict returned by `roi.calculate_sensitivity_analysis`; its fields
are exactly the keys in `sensitivity_output_keys`. -/
structure SensitivityOutput where
  methodology : String
  attribution : List AttributionScenario
  wage_persistence : List (String × ℚ × ℚ)
  denominator : List (String × ℚ × ℚ)
deriving Repr, DecidableEq

/-- `roi.calculate_sensitivity_analysis`: attribution, persistence and
denominator scenarios; the returned dict carries no `caveats` entry. -/
def calculate_sensitivity_analysis (annual_wage_gains investment : ℚ) : SensitivityOutput :=
  let attr : ℕ → AttributionScenario := fun pct =>
    let attributed := annual_wage_gains * ((pct : ℚ) / 100)
    let roi : ℚ := if investment > 0 then attributed / investment * 25 else 0
    { pct := pct
      attributed_annual_gains := pyRound attributed 0
      implied_lifecycle_roi := pyRound roi 1 }
  let persistRow : String → ℚ → String × ℚ × ℚ := fun d mult =>
    (d, pyRound (annual_wage_gains * mult) 0,
      if investment > 0 then pyRound (annual_wage_gains * mult / investment) 1 else 0)
  { methodology := "Varies key assumptions to show range of outcomes"
    attribution := [attr 100, attr 70, attr 50, attr 30]
    wage_persistence :=
      [persistRow "100% persistence, 25 years" 25,
       persistRow "Fade to 60% by year 10" 15,
       persistRow "Fade to 30% by year 5" 8]
    denominator :=
      [("full_25m", 25000000, pyRound (annual_wage_gains * 25 / 25000000) 1),
       ("annual_program_cost", 6000000, pyRound (annual_wage_gains * 25 / 6000000) 1),
       ("marginal_per_family", 7000, pyRound (annual_wage_gains / 862 * 25 / 7000) 1)] }

/-- The FPL-tier counts handed to Tier 2 by `roi.calculate_full_roi` when
journey data is present: `journeys['cliff_tier'].value_counts().to_dict()`
followed by `dict.get(key, 0)` lookups. -/
def journey_tier_counts (journeys : List Journey) : String → ℕ :=
  fun tier => (journeys.filter (fun j => j.cliff_tier = tier)).length

/-! ## Spec-side model for the tenure formula -/

/-- Maximum of a list of integers, `none` on the empty list. -/
def maxOfList : List ℤ → Option ℤ
  | [] => none
  | x :: xs =>
    match maxOfList xs with
    | none => some x
    | some m => some (max x m)

/-- Minimum of a list of integers, `none` on the empty list. -/
def minOfList : List ℤ → Option ℤ
  | [] => none
  | x :: xs =>
    match minOfList xs with
    | none => some x
    | some m => some (min x m)

/-- Modelled from the spec (not the code), for comparison: tenure is the
latest observed date among last quarterly, first quarterly and baseline
minus the earliest observed date among enrollment, baseline and first
quarterly, null when either side has no observed date. -/
def spec_days_in_program (enrollment baseline firstq lastq : Option ℤ) : Option ℤ :=
  match maxOfList ([lastq, firstq, baseline].filterMap id),
        minOfList ([enrollment, baseline, firstq].filterMap id) with
  | some l, some e => some (l - e)
  | _, _ => none

/-! ## Small facts about the Python-semantics helpers -/

lemma qTruthy_some_iff (x : ℚ) : qTruthy (some x) = true ↔ x ≠ 0 := by
  simp [qTruthy]

lemma pyOrQ_zero_ge_iff (x : Option ℚ) (t : ℚ) (ht : 0 < t) :
    pyOrQ x 0 ≥ t ↔ ∃ v, x = some v ∧ t ≤ v := by
  cases x with
  | none =>
    simp only [pyOrQ]
    constructor
    · intro h; exact absurd (lt_of_lt_of_le ht h) (lt_irrefl 0)
    · rintro ⟨v, hv, _⟩; cases hv
  | some v =>
    simp only [pyOrQ]
    by_cases hv : v = 0
    · subst hv
      simp only [if_pos rfl]
      constructor
      · intro h; exact absurd (lt_of_lt_of_le ht h) (lt_irrefl 0)
      · rintro ⟨w, hw, hwt⟩
        cases hw
        exact absurd (lt_of_lt_of_le ht hwt) (lt_irrefl 0)
    · simp only [if_neg hv]
      constructor
      · intro h; exact ⟨v, rfl, h⟩
      · rintro ⟨w, hw, hwt⟩; cases hw; exact hwt

lemma dOr_eq_none (a b : Option ℤ) : dOr a b = none ↔ a = none ∧ b = none := by
  cases a <;> simp [dOr]

/-! ## Field lemmas for the merge steps -/

lemma empowerStep_none (j : Journey) : empowerStep none j = j := rfl

lemma empowerStep_income_change_annual (e : EmpowerRow) (j : Journey) :
    (empowerStep (some e) j).income_change_annual =
      (match e.wage_gain with | some w => some w | none => j.income_change_annual) := by
  rcases e with ⟨wg, fc, fe, hs, co, nv⟩
  dsimp only [empowerStep]
  cases wg <;> cases fc <;> cases fe <;> cases hs <;> cases co <;> cases nv <;>
    dsimp only <;> split <;> rfl

lemma empowerStep_current_fpl (e : EmpowerRow) (j : Journey) :
    (empowerStep (some e) j).current_fpl =
      (match e.fpl_current with | some c => some c | none => j.current_fpl) := by
  rcases e with ⟨wg, fc, fe, hs, co, nv⟩
  dsimp only [empowerStep]
  cases wg <;> cases fc <;> cases fe <;> cases hs <;> cases co <;> cases nv <;>
    dsimp only <;> split <;> rfl

lemma empowerStep_enrollment_fpl (e : EmpowerRow) (j : Journey) :
    (empowerStep (some e) j).enrollment_fpl =
      (match e.fpl_enrollment with | some c => some c | none => j.enrollment_fpl) := by
  rcases e with ⟨wg, fc, fe, hs, co, nv⟩
  dsimp only [empowerStep]
  cases wg <;> cases fc <;> cases fe <;> cases hs <;> cases co <;> cases nv <;>
    dsimp only <;> split <;> rfl

lemma empowerStep_household_size (e : EmpowerRow) (j : Journey) :
    (empowerStep (some e) j).household_size =
      (match e.household_size with | some h => some h | none => j.household_size) := by
  rcases e with ⟨wg, fc, fe, hs, co, nv⟩
  dsimp only [empowerStep]
  cases wg <;> cases fc <;> cases fe <;> cases hs <;> cases co <;> cases nv <;>
    dsimp only <;> split <;> rfl

lemma intakeStep_income_change_annual (i : Option IntakeRow) (j : Journey) :
    (intakeStep i j).income_change_annual = j.income_change_annual := by
  cases i with
  | none => rfl
  | some r => dsimp only [intakeStep]; split <;> split <;> rfl

lemma intakeStep_current_fpl (i : Option IntakeRow) (j : Journey) :
    (intakeStep i j).current_fpl = j.current_fpl := by
  cases i with
  | none => rfl
  | some r => dsimp only [intakeStep]; split <;> split <;> rfl

lemma intakeStep_enrollment_fpl (i : Option IntakeRow) (j : Journey) :
    (intakeStep i j).enrollment_fpl = j.enrollment_fpl := by
  cases i with
  | none => rfl
  | some r => dsimp only [intakeStep]; split <;> split <;> rfl

lemma intakeStep_household_size (r : IntakeRow) (j : Journey) :
    (intakeStep (some r) j).household_size =
      (if qTruthy j.household_size then j.household_size
       else some (pyOrQ r.adults 1 + pyOrQ r.children 2)) := by
  dsimp only [intakeStep]
  split <;> split <;> rfl

lemma baselineStep_income_change_annual (b : Option BaselineRow) (j : Journey) :
    (baselineStep b j).income_change_annual = j.income_change_annual := by
  cases b with
  | none => rfl
  | some r => dsimp only [baselineStep]; split <;> rfl

lemma baselineStep_current_fpl (b : Option BaselineRow) (j : Journey) :
    (baselineStep b j).current_fpl = j.current_fpl := by
  cases b with
  | none => rfl
  | some r => dsimp only [baselineStep]; split <;> rfl

lemma baselineStep_enrollment_fpl (b : Option BaselineRow) (j : Journey) :
    (baselineStep b j).enrollment_fpl = j.enrollment_fpl := by
  cases b with
  | none => rfl
  | some r => dsimp only [baselineStep]; split <;> rfl

lemma baselineStep_household_size (b : Option BaselineRow) (j : Journey) :
    (baselineStep b j).household_size = j.household_size := by
  cases b with
  | none => rfl
  | some r => dsimp only [baselineStep]; split <;> rfl

lemma quarterlyStep_income_change_annual (q : List QuarterlyRec) (j : Journey) :
    (quarterlyStep q j).income_change_annual = j.income_change_annual := by
  unfold quarterlyStep; split <;> rfl

lemma quarterlyStep_current_fpl (q : List QuarterlyRec) (j : Journey) :
    (quarterlyStep q j).current_fpl = j.current_fpl := by
  unfold quarterlyStep; split <;> rfl

lemma quarterlyStep_enrollment_fpl (q : List QuarterlyRec) (j : Journey) :
    (quarterlyStep q j).enrollment_fpl = j.enrollment_fpl := by
  unfold quarterlyStep; split <;> rfl

lemma quarterlyStep_household_size (q : List QuarterlyRec) (j : Journey) :
    (quarterlyStep q j).household_size = j.household_size := by
  unfold quarterlyStep; split <;> rfl

lemma incomeFallbackStep_skip (j : Journey) (h : qTruthy j.income_change_annual = true) :
    incomeFallbackStep j = j := by
  unfold incomeFallbackStep; rw [h]; rfl

lemma incomeFallbackStep_current_fpl (j : Journey) :
    (incomeFallbackStep j).current_fpl = j.current_fpl := by
  unfold incomeFallbackStep
  split
  · rfl
  · dsimp only; split <;> rfl

lemma incomeFallbackStep_enrollment_fpl (j : Journey) :
    (incomeFallbackStep j).enrollment_fpl = j.enrollment_fpl := by
  unfold incomeFallbackStep
  split
  · rfl
  · dsimp only; split <;> rfl

lemma incomeFallbackStep_household_size (j : Journey) :
    (incomeFallbackStep j).household_size = j.household_size := by
  unfold incomeFallbackStep
  split
  · rfl
  · dsimp only; split <;> rfl

lemma fplFallbackStep_skip (j : Journey) (h : qTruthy j.current_fpl = true) :
    fplFallbackStep j = j := by
  unfold fplFallbackStep; rw [h]; rfl

lemma fplFallbackStep_income_change_annual (j : Journey) :
    (fplFallbackStep j).income_change_annual = j.income_change_annual := by
  unfold fplFallbackStep
  split
  · rfl
  · dsimp only
    repeat' split
    all_goals rfl

lemma fplFallbackStep_household_size (j : Journey) :
    (fplFallbackStep j).household_size = j.household_size := by
  unfold fplFallbackStep
  split
  · rfl
  · dsimp only
    repeat' split
    all_goals rfl

lemma daysStep_income_change_annual (j : Journey) :
    (daysStep j).income_change_annual = j.income_change_annual := by
  unfold daysStep; dsimp only; split <;> rfl

lemma daysStep_current_fpl (j : Journey) :
    (daysStep j).current_fpl = j.current_fpl := by
  unfold daysStep; dsimp only; split <;> rfl

lemma daysStep_enrollment_fpl (j : Journey) :
    (daysStep j).enrollment_fpl = j.enrollment_fpl := by
  unfold daysStep; dsimp only; split <;> rfl

lemma daysStep_household_size (j : Journey) :
    (daysStep j).household_size = j.household_size := by
  unfold daysStep; dsimp only; split <;> rfl

lemma daysStep_enrollment_date (j : Journey) :
    (daysStep j).enrollment_date = j.enrollment_date := by
  unfold daysStep; dsimp only; split <;> rfl

lemma daysStep_baseline_date (j : Journey) :
    (daysStep j).baseline_date = j.baseline_date := by
  unfold daysStep; dsimp only; split <;> rfl

lemma daysStep_first_quarterly_date (j : Journey) :
    (daysStep j).first_quarterly_date = j.first_quarterly_date := by
  unfold daysStep; dsimp only; split <;> rfl

lemma daysStep_last_quarterly_date (j : Journey) :
    (daysStep j).last_quarterly_date = j.last_quarterly_date := by
  unfold daysStep; dsimp only; split <;> rfl

lemma daysStep_days (j : Journey) :
    (daysStep j).days_in_program =
      (match dOr (dOr j.enrollment_date j.baseline_date) j.first_quarterly_date,
             dOr (dOr j.last_quarterly_date j.first_quarterly_date) j.baseline_date with
       | some a, some b => some (b - a)
       | _, _ => none) := by
  unfold daysStep
  dsimp only
  cases h1 : dOr (dOr j.enrollment_date j.baseline_date) j.first_quarterly_date <;>
    cases h2 : dOr (dOr j.last_quarterly_date j.first_quarterly_date) j.baseline_date <;> rfl

lemma classifyStep_income_change_annual (ic : Bool) (j : Journey) :
    (classifyStep ic j).income_change_annual = j.income_change_annual := rfl

lemma classifyStep_current_fpl (ic : Bool) (j : Journey) :
    (classifyStep ic j).current_fpl = j.current_fpl := rfl

lemma classifyStep_enrollment_fpl (ic : Bool) (j : Journey) :
    (classifyStep ic j).enrollment_fpl = j.enrollment_fpl := rfl

lemma classifyStep_household_size (ic : Bool) (j : Journey) :
    (classifyStep ic j).household_size = j.household_size := rfl

lemma classifyStep_days (ic : Bool) (j : Journey) :
    (classifyStep ic j).days_in_program = j.days_in_program := rfl

lemma classifyStep_enrollment_date (ic : Bool) (j : Journey) :
    (classifyStep ic j).enrollment_date = j.enrollment_date := rfl

lemma classifyStep_baseline_date (ic : Bool) (j : Journey) :
    (classifyStep ic j).baseline_date = j.baseline_date := rfl

lemma classifyStep_first_quarterly_date (ic : Bool) (j : Journey) :
    (classifyStep ic j).first_quarterly_date = j.first_quarterly_date := rfl

lemma classifyStep_last_quarterly_date (ic : Bool) (j : Journey) :
    (classifyStep ic j).last_quarterly_date = j.last_quarterly_date := rfl

lemma classifyStep_is_graduate (ic : Bool) (j : Journey) :
    (classifyStep ic j).is_graduate = (ic || decide (pyOrQ j.current_fpl 0 ≥ 225)) := rfl

lemma classifyStep_cliff_tier (ic : Bool) (j : Journey) :
    (classifyStep ic j).cliff_tier = classify_cliff_tier ic j.current_fpl := rfl

lemma assessmentsStep_income_change_annual (hb : Bool) (qc cc : ℕ) (j : Journey) :
    (assessmentsStep hb qc cc j).income_change_annual = j.income_change_annual := rfl

lemma assessmentsStep_current_fpl (hb : Bool) (qc cc : ℕ) (j : Journey) :
    (assessmentsStep hb qc cc j).current_fpl = j.current_fpl := rfl

lemma assessmentsStep_enrollment_fpl (hb : Bool) (qc cc : ℕ) (j : Journey) :
    (assessmentsStep hb qc cc j).enrollment_fpl = j.enrollment_fpl := rfl

lemma assessmentsStep_household_size (hb : Bool) (qc cc : ℕ) (j : Journey) :
    (assessmentsStep hb qc cc j).household_size = j.household_size := rfl

lemma assessmentsStep_days (hb : Bool) (qc cc : ℕ) (j : Journey) :
    (assessmentsStep hb qc cc j).days_in_program = j.days_in_program := rfl

lemma assessmentsStep_is_graduate (hb : Bool) (qc cc : ℕ) (j : Journey) :
    (assessmentsStep hb qc cc j).is_graduate = j.is_graduate := rfl

lemma assessmentsStep_cliff_tier (hb : Bool) (qc cc : ℕ) (j : Journey) :
    (assessmentsStep hb qc cc j).cliff_tier = j.cliff_tier := rfl

lemma assessmentsStep_enrollment_date (hb : Bool) (qc cc : ℕ) (j : Journey) :
    (assessmentsStep hb qc cc j).enrollment_date = j.enrollment_date := rfl

lemma assessmentsStep_baseline_date (hb : Bool) (qc cc : ℕ) (j : Journey) :
    (assessmentsStep hb qc cc j).baseline_date = j.baseline_date := rfl

lemma assessmentsStep_first_quarterly_date (hb : Bool) (qc cc : ℕ) (j : Journey) :
    (assessmentsStep hb qc cc j).first_quarterly_date = j.first_quarterly_date := rfl

lemma assessmentsStep_last_quarterly_date (hb : Bool) (qc cc : ℕ) (j : Journey) :
    (assessmentsStep hb qc cc j).last_quarterly_date = j.last_quarterly_date := rfl

/-! ## Facts about the cliff-tier classifier -/

lemma is_graduate_flag_iff (ic : Bool) (x : Option ℚ) :
    (ic || decide (pyOrQ x 0 ≥ 225)) = true ↔
      (ic = true ∨ ∃ v, x = some v ∧ 225 ≤ v) := by
  rw [Bool.or_eq_true, decide_eq_true_iff, ge_iff_le,
    show ((225:ℚ) ≤ pyOrQ x 0) = (pyOrQ x 0 ≥ 225) from rfl,
    pyOrQ_zero_ge_iff x 225 (by norm_num)]

lemma classify_cliff_tier_graduated_iff (ic : Bool) (x : Option ℚ) :
    classify_cliff_tier ic x = "graduated" ↔
      (ic = true ∨ ∃ v, x = some v ∧ 225 ≤ v) := by
  cases ic with
  | true => simp [classify_cliff_tier]
  | false =>
    cases x with
    | none => simp [classify_cliff_tier]
    | some v =>
      simp only [classify_cliff_tier, Bool.false_eq_true, false_or]
      by_cases h : v ≥ 225
      · rw [if_pos h]
        exact iff_of_true rfl ⟨v, rfl, h⟩
      · rw [if_neg h]
        constructor
        · intro heq
          exfalso
          repeat' split at heq
          all_goals first
            | assumption
            | exact absurd heq (by decide)
        · rintro ⟨w, hw, hww⟩
          injection hw with hw
          exact absurd (hw ▸ hww) h

lemma classify_cliff_tier_mem (ic : Bool) (x : Option ℚ) :
    classify_cliff_tier ic x ∈
      ["graduated", "near_graduation", "deep_cliff", "liheap_childcare",
       "snap_tenncare", "deep_poverty", "extreme_poverty", "unknown"] := by
  cases ic with
  | true => simp [classify_cliff_tier]
  | false =>
    cases x with
    | none => simp [classify_cliff_tier]
    | some v =>
      unfold classify_cliff_tier
      dsimp only
      repeat' split
      all_goals simp

/-! ## Claim C1 -/

/-- C1: for every journey produced by `build_single_journey`, `is_graduate`
is true if and only if the participant is on the authoritative graduate
roster or `current_fpl >= 225`, and `cliff_tier = "graduated"` holds under
exactly the same condition; roster membership alone forces both. -/
theorem c1_graduation_iff (pid : ℤ) (gids : List ℤ) (e : Option EmpowerRow)
    (i : Option IntakeRow) (b : Option BaselineRow) (q : List QuarterlyRec) (c : ℕ) :
    ((build_single_journey pid gids e i b q c).is_graduate = true ↔
      (gids.contains pid = true ∨
        ∃ v, (build_single_journey pid gids e i b q c).current_fpl = some v ∧ 225 ≤ v)) ∧
    ((build_single_journey pid gids e i b q c).cliff_tier = "graduated" ↔
      (gids.contains pid = true ∨
        ∃ v, (build_single_journey pid gids e i b q c).current_fpl = some v ∧ 225 ≤ v)) := by
  have hb : build_single_journey pid gids e i b q c =
      assessmentsStep b.isSome q.length c (classifyStep (gids.contains pid)
        (daysStep (fplFallbackStep (incomeFallbackStep (quarterlyStep q
          (baselineStep b (intakeStep i (empowerStep e { participant_id := pid })))))))) := rfl
  rw [hb, assessmentsStep_is_graduate, assessmentsStep_cliff_tier, assessmentsStep_current_fpl,
    classifyStep_is_graduate, classifyStep_cliff_tier, classifyStep_current_fpl]
  exact ⟨is_graduate_flag_iff _ _, classify_cliff_tier_graduated_iff _ _⟩

/-- C1 witness: a participant known only from the graduate roster is a
graduate and classified `"graduated"`. -/
theorem c1_graduation_iff_witness :
    (build_single_journey 7 [7] none none none [] 0).is_graduate = true ∧
    (build_single_journey 7 [7] none none none [] 0).cliff_tier = "graduated" := by
  have h := c1_graduation_iff 7 [7] none none none [] 0
  exact ⟨h.1.mpr (Or.inl (by decide)), h.2.mpr (Or.inl (by decide))⟩

/-! ## Claim C10 -/

/-- C10: every journey's `cliff_tier` is one of the eight enumerated names
and `is_graduate` is a boolean (`Bool`-typed by construction, never null);
a participant with no `current_fpl` who is not on the roster gets
`is_graduate = false` and `cliff_tier = "unknown"`. -/
theorem c10_classification_totality (pid : ℤ) (gids : List ℤ) (e : Option EmpowerRow)
    (i : Option IntakeRow) (b : Option BaselineRow) (q : List QuarterlyRec) (c : ℕ) :
    (build_single_journey pid gids e i b q c).cliff_tier ∈
      ["graduated", "near_graduation", "deep_cliff", "liheap_childcare",
       "snap_tenncare", "deep_poverty", "extreme_poverty", "unknown"] ∧
    (gids.contains pid = false →
      (build_single_journey pid gids e i b q c).current_fpl = none →
      (build_single_journey pid gids e i b q c).is_graduate = false ∧
      (build_single_journey pid gids e i b q c).cliff_tier = "unknown") := by
  have hb : build_single_journey pid gids e i b q c =
      assessmentsStep b.isSome q.length c (classifyStep (gids.contains pid)
        (daysStep (fplFallbackStep (incomeFallbackStep (quarterlyStep q
          (baselineStep b (intakeStep i (empowerStep e { participant_id := pid })))))))) := rfl
  rw [hb, assessmentsStep_is_graduate, assessmentsStep_cliff_tier, assessmentsStep_current_fpl,
    classifyStep_is_graduate, classifyStep_cliff_tier, classifyStep_current_fpl]
  refine ⟨classify_cliff_tier_mem _ _, fun hic hcf => ?_⟩
  rw [hic, hcf]
  exact ⟨by decide, rfl⟩

/-- C10 witness: a participant with no data at all still yields a journey
with `is_graduate = false` and `cliff_tier = "unknown"`. -/
theorem c10_classification_totality_witness :
    (build_single_journey 1 [] none none none [] 0).cliff_tier ∈
      ["graduated", "near_graduation", "deep_cliff", "liheap_childcare",
       "snap_tenncare", "deep_poverty", "extreme_poverty", "unknown"] ∧
    (build_single_journey 1 [] none none none [] 0).is_graduate = false ∧
    (build_single_journey 1 [] none none none [] 0).cliff_tier = "unknown" := by
  have h := c10_classification_totality 1 [] none none none [] 0
  have h2 := h.2 (by decide) (by decide)
  exact ⟨h.1, h2.1, h2.2⟩

/-! ## Claim C2 -/

/-- C2 counterexample: the Empower extract supplies the non-missing value
`income_change_annual = 0`, yet the quarterly fallback (incomes 1000 and
1250 over two quarters) overwrites it with `(1250 - 1000) * 12 = 3000`:
the truthiness guard `if not journey.get('income_change_annual')` treats a
stored 0 as unset, so the claimed never-overwrite property fails at 0. -/
theorem c2_counterexample :
    (build_single_journey 1 [] (some ⟨some 0, none, none, none, none, none⟩) none none
        [⟨some 31, some 1000⟩, ⟨some 152, some 1250⟩] 0).income_change_annual = some 3000 ∧
    some (3000 : ℚ) ≠ some (0 : ℚ) := by
  constructor
  · norm_num [build_single_journey, empowerStep, intakeStep, baselineStep, quarterlyStep,
      sortQuarterly, insertByDate, dateLe, incomeFallbackStep, fplFallbackStep, daysStep,
      classifyStep, assessmentsStep, qTruthy, pyOrQ, qOr, dOr, calculate_fpl_pct,
      fpl_household, pyInt, FPL_BASE, FPL_PER_ADDITIONAL, classify_cliff_tier]
  · norm_num

/-- C2 (amended): once `income_change_annual` or `current_fpl` is set from
the Empower extract with a non-zero value, the quarterly/baseline fallback
never overwrites it, and when Empower also supplies a non-zero
`current_fpl` its `enrollment_fpl` passes through unchanged; a zero value
is treated as unset by the truthiness guards and may be overwritten. -/
theorem c2_priority_amended (pid : ℤ) (gids : List ℤ) (e : EmpowerRow)
    (i : Option IntakeRow) (b : Option BaselineRow) (q : List QuarterlyRec) (c : ℕ) :
    (∀ w : ℚ, w ≠ 0 → e.wage_gain = some w →
      (build_single_journey pid gids (some e) i b q c).income_change_annual = some w) ∧
    (∀ cf : ℚ, cf ≠ 0 → e.fpl_current = some cf →
      (build_single_journey pid gids (some e) i b q c).current_fpl = some cf ∧
      (build_single_journey pid gids (some e) i b q c).enrollment_fpl = e.fpl_enrollment) := by
  set j1 := empowerStep (some e) { participant_id := pid } with hj1
  set j2 := intakeStep i j1 with hj2
  set j3 := baselineStep b j2 with hj3
  set j4 := quarterlyStep q j3 with hj4
  set j5 := incomeFallbackStep j4 with hj5
  set j6 := fplFallbackStep j5 with hj6
  have hbuild : build_single_journey pid gids (some e) i b q c =
      assessmentsStep b.isSome q.length c (classifyStep (gids.contains pid) (daysStep j6)) := rfl
  constructor
  · intro w hw hwg
    have h1 : j1.income_change_annual = some w := by
      rw [hj1, empowerStep_income_change_annual, hwg]
    have h4 : j4.income_change_annual = some w := by
      rw [hj4, quarterlyStep_income_change_annual, hj3, baselineStep_income_change_annual,
        hj2, intakeStep_income_change_annual, h1]
    have h5 : j5 = j4 := by
      rw [hj5]
      exact incomeFallbackStep_skip j4 (by rw [h4]; simp [qTruthy, hw])
    rw [hbuild, assessmentsStep_income_change_annual, classifyStep_income_change_annual,
      daysStep_income_change_annual, hj6, fplFallbackStep_income_change_annual, h5, h4]
  · intro cf hcf hfc
    have h1c : j1.current_fpl = some cf := by
      rw [hj1, empowerStep_current_fpl, hfc]
    have h5c : j5.current_fpl = some cf := by
      rw [hj5, incomeFallbackStep_current_fpl, hj4, quarterlyStep_current_fpl,
        hj3, baselineStep_current_fpl, hj2, intakeStep_current_fpl, h1c]
    have h6 : j6 = j5 := by
      rw [hj6]
      exact fplFallbackStep_skip j5 (by rw [h5c]; simp [qTruthy, hcf])
    have h1e : j1.enrollment_fpl = e.fpl_enrollment := by
      rw [hj1, empowerStep_enrollment_fpl]
      cases e.fpl_enrollment <;> rfl
    constructor
    · rw [hbuild, assessmentsStep_current_fpl, classifyStep_current_fpl,
        daysStep_current_fpl, h6, h5c]
    · rw [hbuild, assessmentsStep_enrollment_fpl, classifyStep_enrollment_fpl,
        daysStep_enrollment_fpl, h6, hj5, incomeFallbackStep_enrollment_fpl,
        hj4, quarterlyStep_enrollment_fpl, hj3, baselineStep_enrollment_fpl,
        hj2, intakeStep_enrollment_fpl, h1e]

/-- C2 witness: the spec example - Empower supplies
`income_change_annual = 5000` while the quarterly fallback would derive
3000; the journey keeps 5000, and the Empower FPL values 225/100 also
survive. -/
theorem c2_priority_amended_witness :
    (build_single_journey 1 [] (some ⟨some 5000, some 225, some 100, none, none, none⟩)
        none none [⟨some 31, some 1000⟩, ⟨some 152, some 1250⟩] 0).income_change_annual =
      some 5000 ∧
    (build_single_journey 1 [] (some ⟨some 5000, some 225, some 100, none, none, none⟩)
        none none [⟨some 31, some 1000⟩, ⟨some 152, some 1250⟩] 0).current_fpl = some 225 ∧
    (build_single_journey 1 [] (some ⟨some 5000, some 225, some 100, none, none, none⟩)
        none none [⟨some 31, some 1000⟩, ⟨some 152, some 1250⟩] 0).enrollment_fpl = some 100 := by
  have h := c2_priority_amended 1 [] ⟨some 5000, some 225, some 100, none, none, none⟩
    none none [⟨some 31, some 1000⟩, ⟨some 152, some 1250⟩] 0
  have hw := h.1 5000 (by norm_num) rfl
  have hc := h.2 225 (by norm_num) rfl
  exact ⟨hw, hc.1, hc.2⟩

/-! ## Claim C6 -/

lemma intakeStep_household_truthy (i : Option IntakeRow) (j : Journey)
    (h : qTruthy j.household_size = true) :
    (intakeStep i j).household_size = j.household_size := by
  cases i with
  | none => rfl
  | some r => rw [intakeStep_household_size, if_pos h]

lemma pyOrQ_nat_default_one (a : Option ℚ)
    (ha : a = none ∨ ∃ n : ℕ, a = some (n : ℚ)) : 1 ≤ pyOrQ a 1 := by
  rcases ha with rfl | ⟨n, rfl⟩
  · simp [pyOrQ]
  · simp only [pyOrQ]
    split
    · norm_num
    · rename_i h
      have hn : n ≠ 0 := by
        intro h0
        exact h (by rw [h0]; norm_num)
      exact_mod_cast Nat.one_le_iff_ne_zero.mpr hn

lemma pyOrQ_nat_default_two_nonneg (a : Option ℚ)
    (ha : a = none ∨ ∃ n : ℕ, a = some (n : ℚ)) : 0 ≤ pyOrQ a 2 := by
  rcases ha with rfl | ⟨n, rfl⟩
  · simp [pyOrQ]
  · simp only [pyOrQ]
    split
    · norm_num
    · positivity

/-- C6 counterexample: the Empower extract supplies `household_size = 0`
for a participant with no intake record; the journey stores 0 as-is, so
`household_size >= 1` fails - there is no coercion at the journey level. -/
theorem c6_counterexample :
    (build_single_journey 1 [] (some ⟨none, none, none, some 0, none, none⟩)
        none none [] 0).household_size = some 0 ∧
    ¬ (1 : ℚ) ≤ 0 := by
  exact ⟨by decide, by norm_num⟩

/-- C6 (amended): the journey-level `household_size` is not coerced: a
non-zero Empower value (even a fractional or negative one) is stored
verbatim, and only the intake fallback `(adults or 1) + (children or 2)`
guarantees a value `>= 1`, provided the resolved adult/child counts are
natural numbers or missing; the `max(1, .)` coercion lives solely inside
the FPL model (`fpl_household`). -/
theorem c6_household_amended (pid : ℤ) (gids : List ℤ) (i : Option IntakeRow)
    (b : Option BaselineRow) (q : List QuarterlyRec) (c : ℕ) :
    (∀ (e : EmpowerRow) (h : ℚ), h ≠ 0 → e.household_size = some h →
      (build_single_journey pid gids (some e) i b q c).household_size = some h) ∧
    (∀ (e : Option EmpowerRow) (r : IntakeRow),
      (∀ er, e = some er → (er.household_size = none ∨ er.household_size = some 0)) →
      (r.adults = none ∨ ∃ n : ℕ, r.adults = some (n : ℚ)) →
      (r.children = none ∨ ∃ n : ℕ, r.children = some (n : ℚ)) →
      ∃ hs : ℚ, (build_single_journey pid gids e (some r) b q c).household_size = some hs ∧
        1 ≤ hs) ∧
    (∀ hh : Option ℚ, 1 ≤ fpl_household hh) := by
  refine ⟨?_, ?_, ?_⟩
  · intro e h hne hhs
    set j1 := empowerStep (some e) { participant_id := pid } with hj1
    set j2 := intakeStep i j1 with hj2
    have hbuild : build_single_journey pid gids (some e) i b q c =
        assessmentsStep b.isSome q.length c (classifyStep (gids.contains pid)
          (daysStep (fplFallbackStep (incomeFallbackStep (quarterlyStep q
            (baselineStep b j2)))))) := rfl
    have h1 : j1.household_size = some h := by
      rw [hj1, empowerStep_household_size, hhs]
    have h2 : j2.household_size = some h := by
      rw [hj2, intakeStep_household_truthy i j1 (by rw [h1]; simp [qTruthy, hne]), h1]
    rw [hbuild, assessmentsStep_household_size, classifyStep_household_size,
      daysStep_household_size, fplFallbackStep_household_size,
      incomeFallbackStep_household_size, quarterlyStep_household_size,
      baselineStep_household_size, h2]
  · intro e r he ha hc
    set j1 := empowerStep e { participant_id := pid } with hj1
    set j2 := intakeStep (some r) j1 with hj2
    have hbuild : build_single_journey pid gids e (some r) b q c =
        assessmentsStep b.isSome q.length c (classifyStep (gids.contains pid)
          (daysStep (fplFallbackStep (incomeFallbackStep (quarterlyStep q
            (baselineStep b j2)))))) := rfl
    have h1 : qTruthy j1.household_size = false := by
      cases e with
      | none => rw [hj1, empowerStep_none]; rfl
      | some er =>
        rw [hj1, empowerStep_household_size]
        rcases he er rfl with h | h <;> rw [h] <;> simp [qTruthy]
    have h2 : j2.household_size = some (pyOrQ r.adults 1 + pyOrQ r.children 2) := by
      rw [hj2, intakeStep_household_size, h1]
      simp
    refine ⟨pyOrQ r.adults 1 + pyOrQ r.children 2, ?_, ?_⟩
    · rw [hbuild, assessmentsStep_household_size, classifyStep_household_size,
        daysStep_household_size, fplFallbackStep_household_size,
        incomeFallbackStep_household_size, quarterlyStep_household_size,
        baselineStep_household_size, h2]
    · have hb1 := pyOrQ_nat_default_one r.adults ha
      have hb2 := pyOrQ_nat_default_two_nonneg r.children hc
      linarith
  · intro hh
    cases hh with
    | none => norm_num [fpl_household]
    | some h => simp [fpl_household]

/-- C6 witness: a fractional Empower household size of `7/2` passes
through verbatim, an intake record with 2 adults and 1 child yields
`household_size = 3 >= 1`, and the FPL model coerces a household size of
0 up to 1. -/
theorem c6_household_amended_witness :
    (build_single_journey 1 [] (some ⟨none, none, none, some (7/2), none, none⟩)
        none none [] 0).household_size = some (7/2) ∧
    (build_single_journey 1 [] none (some ⟨none, none, none, some 2, some 1⟩)
        none [] 0).household_size = some 3 ∧
    (1 : ℤ) ≤ fpl_household (some 0) := by
  refine ⟨(c6_household_amended 1 [] none none [] 0).1
      ⟨none, none, none, some (7/2), none, none⟩ (7/2) (by norm_num) rfl, ?_,
    (c6_household_amended 1 [] none none [] 0).2.2 (some 0)⟩
  norm_num [build_single_journey, empowerStep, intakeStep, baselineStep, quarterlyStep,
    sortQuarterly, insertByDate, dateLe, incomeFallbackStep, fplFallbackStep, daysStep,
    classifyStep, assessmentsStep, qTruthy, pyOrQ, qOr, dOr, sTruthy, calculate_fpl_pct,
    fpl_household, pyInt, FPL_BASE, FPL_PER_ADDITIONAL, classify_cliff_tier]

/-! ## Claim C7 -/

lemma sub_match_eq_none (x y : Option ℤ) :
    (match x, y with
     | some a, some b => some (b - a)
     | _, _ => (none : Option ℤ)) = none ↔ x = none ∨ y = none := by
  cases x <;> cases y <;> simp

/-- C7 counterexample: with enrollment date 60, baseline date 0, first
quarterly 31 and last quarterly 152 (all in days), the code coalesces in
preference order and returns `152 - 60 = 92` days, while the claimed
latest-minus-earliest formula gives `152 - 0 = 152`. -/
theorem c7_counterexample :
    (build_single_journey 1 [] none (some ⟨none, none, some 60, none, none⟩)
        (some ⟨some 0, none⟩) [⟨some 31, none⟩, ⟨some 152, none⟩] 0).days_in_program =
      some 92 ∧
    spec_days_in_program (some 60) (some 0) (some 31) (some 152) = some 152 ∧
    (92 : ℤ) ≠ 152 := by
  refine ⟨by decide, by decide, by decide⟩

/-- C7 (amended): `days_in_program` is the difference between the first
available date in the preference chain last-quarterly, first-quarterly,
baseline and the first available in the chain enrollment, baseline,
first-quarterly (a coalesce in fixed order, not a latest-minus-earliest),
and it is null exactly when one of the two chains is entirely null. -/
theorem c7_days_amended (pid : ℤ) (gids : List ℤ) (e : Option EmpowerRow)
    (i : Option IntakeRow) (b : Option BaselineRow) (q : List QuarterlyRec) (c : ℕ)
    (j : Journey) (hj : j = build_single_journey pid gids e i b q c) :
    (j.days_in_program =
      (match dOr (dOr j.enrollment_date j.baseline_date) j.first_quarterly_date,
             dOr (dOr j.last_quarterly_date j.first_quarterly_date) j.baseline_date with
       | some a, some bb => some (bb - a)
       | _, _ => none)) ∧
    (j.days_in_program = none ↔
      ((j.enrollment_date = none ∧ j.baseline_date = none ∧ j.first_quarterly_date = none) ∨
       (j.last_quarterly_date = none ∧ j.first_quarterly_date = none ∧ j.baseline_date = none))) := by
  have hb : build_single_journey pid gids e i b q c =
      assessmentsStep b.isSome q.length c (classifyStep (gids.contains pid)
        (daysStep (fplFallbackStep (incomeFallbackStep (quarterlyStep q
          (baselineStep b (intakeStep i (empowerStep e { participant_id := pid })))))))) := rfl
  subst hj
  rw [hb]
  constructor
  · rw [assessmentsStep_days, classifyStep_days, daysStep_days,
      assessmentsStep_enrollment_date, classifyStep_enrollment_date, daysStep_enrollment_date,
      assessmentsStep_baseline_date, classifyStep_baseline_date, daysStep_baseline_date,
      assessmentsStep_first_quarterly_date, classifyStep_first_quarterly_date,
      daysStep_first_quarterly_date,
      assessmentsStep_last_quarterly_date, classifyStep_last_quarterly_date,
      daysStep_last_quarterly_date]
  · rw [assessmentsStep_days, classifyStep_days, daysStep_days,
      assessmentsStep_enrollment_date, classifyStep_enrollment_date, daysStep_enrollment_date,
      assessmentsStep_baseline_date, classifyStep_baseline_date, daysStep_baseline_date,
      assessmentsStep_first_quarterly_date, classifyStep_first_quarterly_date,
      daysStep_first_quarterly_date,
      assessmentsStep_last_quarterly_date, classifyStep_last_quarterly_date,
      daysStep_last_quarterly_date, sub_match_eq_none, dOr_eq_none, dOr_eq_none,
      dOr_eq_none, dOr_eq_none, and_assoc, and_assoc]

/-- C7 witness: with only a baseline date 10 and quarterly dates 25 and 40
the coalesced formula yields `40 - 10 = 30` days, which is then not null. -/
theorem c7_days_amended_witness :
    (build_single_journey 2 [] none none (some ⟨some 10, none⟩)
        [⟨some 25, none⟩, ⟨some 40, none⟩] 0).days_in_program = some 30 ∧
    (build_single_journey 2 [] none none (some ⟨some 10, none⟩)
        [⟨some 25, none⟩, ⟨some 40, none⟩] 0).days_in_program ≠ none := by
  have h := c7_days_amended 2 [] none none (some ⟨some 10, none⟩)
    [⟨some 25, none⟩, ⟨some 40, none⟩] 0 _ rfl
  have h1 : (build_single_journey 2 [] none none (some ⟨some 10, none⟩)
      [⟨some 25, none⟩, ⟨some 40, none⟩] 0).days_in_program = some 30 := by
    rw [h.1]; decide
  exact ⟨h1, by rw [h1]; simp⟩

/-! ## Claim C3 -/

/-- C3 counterexample: `metrics.calculate_fpl` guards with `annual_income
< 0` (strict), so `calculate_fpl(0, 3)` returns `0.0`, not null - the
claimed behaviour does not hold for every FPL-computing function. -/
theorem c3_counterexample :
    calculate_fpl (some 0) (some 3) = some 0 ∧ some (0 : ℚ) ≠ (none : Option ℚ) := by
  constructor
  · norm_num [calculate_fpl, get_poverty_line, pyInt]
  · simp

/-- C3 (amended): `journey.calculate_fpl_pct` is null exactly when income
is missing or `<= 0` and satisfies the quoted concrete values, with
`fpl_percent(15060, 1) = 100` exactly; but the invariant is not shared by
every FPL function: `metrics.calculate_fpl` is null exactly when income is
missing, household size is missing or `< 1`, or income is strictly
negative, and it returns `0.0` at income 0. -/
theorem c3_fpl_null_amended :
    (∀ inc hh, calculate_fpl_pct inc hh = none ↔
      (inc = none ∨ ∃ x, inc = some x ∧ x ≤ 0)) ∧
    calculate_fpl_pct (some 15060) (some 1) = some 100 ∧
    calculate_fpl_pct (some 0) (some 3) = none ∧
    calculate_fpl_pct (some (-100)) (some 3) = none ∧
    (∀ inc hh, calculate_fpl inc hh = none ↔
      (inc = none ∨ hh = none ∨ (∃ h, hh = some h ∧ h < 1) ∨
        (∃ x, inc = some x ∧ x < 0))) ∧
    (∀ h : ℚ, 1 ≤ h → calculate_fpl (some 0) (some h) = some 0) := by
  refine ⟨?_, ?_, ?_, ?_, ?_, ?_⟩
  · intro inc hh
    cases inc with
    | none => simp [calculate_fpl_pct]
    | some x =>
      simp only [calculate_fpl_pct]
      by_cases hx : x ≤ 0
      · rw [if_pos hx]
        exact iff_of_true rfl (Or.inr ⟨x, rfl, hx⟩)
      · rw [if_neg hx]
        simp [hx]
  · norm_num [calculate_fpl_pct, fpl_household, pyInt, FPL_BASE, FPL_PER_ADDITIONAL]
  · norm_num [calculate_fpl_pct]
  · norm_num [calculate_fpl_pct]
  · intro inc hh
    cases inc with
    | none => simp [calculate_fpl]
    | some x =>
      cases hh with
      | none => simp [calculate_fpl]
      | some h =>
        simp only [calculate_fpl]
        by_cases h1 : h < 1
        · rw [if_pos h1]
          exact iff_of_true rfl (Or.inr (Or.inr (Or.inl ⟨h, rfl, h1⟩)))
        · rw [if_neg h1]
          by_cases h2 : x < 0
          · rw [if_pos h2]
            exact iff_of_true rfl (Or.inr (Or.inr (Or.inr ⟨x, rfl, h2⟩)))
          · rw [if_neg h2]
            simp [h1, h2]
  · intro h h1
    simp only [calculate_fpl]
    rw [if_neg (not_lt.mpr h1), if_neg (by norm_num)]
    norm_num

/-- C3 witness: the amended statement at its concrete inputs. -/
theorem c3_fpl_null_amended_witness :
    calculate_fpl_pct (some 15060) (some 1) = some 100 ∧
    calculate_fpl (some 0) (some 3) = some 0 ∧
    calculate_fpl_pct (some 0) (some 3) = none := by
  have h := c3_fpl_null_amended
  exact ⟨h.2.1, h.2.2.2.2.2 3 (by norm_num), h.2.2.1⟩

/-! ## Claim C8 -/

/-- C8: the Empower FPL format-detection multiplies the whole column by
100 exactly when the median of its non-null values is below 10, leaves it
unchanged when the median is at least 10, and leaves an all-null column
unchanged. -/
theorem c8_format_detection (col : List (Option ℚ)) :
    (∀ m, medianOfNonNull col = some m →
      ((m < 10 → detectAndScaleFpl col = col.map (Option.map fun x => x * 100)) ∧
       (10 ≤ m → detectAndScaleFpl col = col))) ∧
    (medianOfNonNull col = none → detectAndScaleFpl col = col) := by
  constructor
  · intro m hm
    constructor
    · intro hlt
      unfold detectAndScaleFpl
      rw [hm]
      dsimp only
      rw [if_pos hlt]
    · intro hge
      unfold detectAndScaleFpl
      rw [hm]
      dsimp only
      rw [if_neg (not_lt.mpr hge)]
  · intro hm
    unfold detectAndScaleFpl
    rw [hm]

/-- C8 witness: `[2.0, 2.25, 1.8]` has median 2 and becomes
`[200, 225, 180]`; `[200, 225, 180]` has median 200 and is unchanged. -/
theorem c8_format_detection_witness :
    medianOfNonNull [some 2, some (9/4), some (9/5)] = some 2 ∧
    detectAndScaleFpl [some 2, some (9/4), some (9/5)] =
      [some 200, some 225, some 180] ∧
    medianOfNonNull [some 200, some 225, some 180] = some 200 ∧
    detectAndScaleFpl [some 200, some 225, some 180] = [some 200, some 225, some 180] := by
  have hs1 : sortQ [2, 9/4, 9/5] = [9/5, 2, 9/4] := by
    norm_num [sortQ, insertQ, List.foldr_cons, List.foldr_nil]
  have hs2 : sortQ [(200 : ℚ), 225, 180] = [180, 200, 225] := by
    norm_num [sortQ, insertQ, List.foldr_cons, List.foldr_nil]
  have hm1 : medianOfNonNull [some 2, some (9/4), some (9/5)] = some 2 := by
    show medianQ [(2 : ℚ), 9/4, 9/5] = some 2
    simp only [medianQ, hs1]
    rfl
  have hm2 : medianOfNonNull [some (200 : ℚ), some 225, some 180] = some 200 := by
    show medianQ [(200 : ℚ), 225, 180] = some 200
    simp only [medianQ, hs2]
    rfl
  refine ⟨hm1, ?_, hm2, ?_⟩
  · rw [((c8_format_detection _).1 2 hm1).1 (by norm_num)]
    norm_num
  · exact ((c8_format_detection _).1 200 hm2).2 (by norm_num)

/-! ## Claim C9 -/

/-- C9: Tier 1 returns `round(gains / investment, 4)` as the per-dollar
return; the break-even and cost-per-dollar outputs are the `"N/A"`
sentinel exactly when gains are 0 (the internal infinity never reaches the
output), and equal `round(investment / gains, 2)` for positive gains. -/
theorem c9_tier1_sentinel (g i : ℚ) (hg : 0 ≤ g) (hi : 0 < i) :
    (calculate_tier1_conservative g i).metrics.annual_return_per_dollar_invested =
      pyRound (g / i) 4 ∧
    ((calculate_tier1_conservative g i).metrics.break_even_years_undiscounted = RVal.na ↔
      g = 0) ∧
    (0 < g → (calculate_tier1_conservative g i).metrics.break_even_years_undiscounted =
      RVal.num (pyRound (i / g) 2)) ∧
    ((calculate_tier1_conservative g i).metrics.cost_per_dollar_income_generated = RVal.na ↔
      g = 0) := by
  unfold calculate_tier1_conservative
  dsimp only
  rw [if_pos hi]
  refine ⟨rfl, ?_, ?_, ?_⟩
  · by_cases hgp : g > 0
    · rw [if_pos hgp]
      dsimp only
      exact iff_of_false (by simp) (by intro h; exact absurd (h ▸ hgp) (lt_irrefl 0))
    · rw [if_neg hgp]
      exact iff_of_true rfl (le_antisymm (not_lt.mp hgp) hg)
  · intro hgp
    rw [if_pos hgp]
  · by_cases hgp : g > 0
    · rw [if_pos hgp]
      dsimp only
      exact iff_of_false (by simp) (by intro h; exact absurd (h ▸ hgp) (lt_irrefl 0))
    · rw [if_neg hgp]
      exact iff_of_true rfl (le_antisymm (not_lt.mp hgp) hg)

/-- C9 witness: gains $6.2M over a $25M investment give a per-dollar
return of exactly 0.248 and break-even of 4.03 years; zero gains give the
`"N/A"` sentinel. -/
theorem c9_tier1_sentinel_witness :
    (0 : ℚ) ≤ 6200000 ∧ (0 : ℚ) < 25000000 ∧
    (calculate_tier1_conservative 6200000 25000000).metrics.annual_return_per_dollar_invested =
      248/1000 ∧
    (calculate_tier1_conservative 6200000 25000000).metrics.break_even_years_undiscounted =
      RVal.num (403/100) ∧
    (calculate_tier1_conservative 0 25000000).metrics.break_even_years_undiscounted =
      RVal.na := by
  have h := c9_tier1_sentinel 6200000 25000000 (by norm_num) (by norm_num)
  have h0 := c9_tier1_sentinel 0 25000000 le_rfl (by norm_num)
  refine ⟨by norm_num, by norm_num, ?_, ?_, h0.2.1.mpr rfl⟩
  · rw [h.1]
    norm_num [pyRound, roundHalfEven]
  · rw [h.2.2.1 (by norm_num)]
    norm_num [pyRound, roundHalfEven]

/-! ## Claim C4 -/

/-- C4: the four tier results each carry a non-empty caveats list, but the
dict returned by `calculate_sensitivity_analysis` has no `caveats` key at
all (its top-level keys are exactly `methodology`, `attribution`,
`wage_persistence` and `denominator`), so the claim fails for the
sensitivity analysis - evaluated here at the program's own headline
figures (gains $6.2M, investment $25M). -/
theorem c4_sensitivity_caveats_missing :
    "caveats" ∉ sensitivity_output_keys ∧
    (calculate_tier1_conservative 6200000 25000000).caveats ≠ [] ∧
    (calculate_tier2_taxpayer 6200000 (fun _ => 0) 25000000).caveats ≠ [] ∧
    (calculate_tier3_lifecycle 6200000 25000000).caveats ≠ [] ∧
    (calculate_tier4_intergenerational 6200000 7192 862 25000000).caveats ≠ [] ∧
    (calculate_sensitivity_analysis 6200000 25000000).methodology =
      "Varies key assumptions to show range of outcomes" := by
  refine ⟨by decide, ?_, ?_, ?_, ?_, rfl⟩
  · simp [calculate_tier1_conservative]
  · simp [calculate_tier2_taxpayer]
  · simp [calculate_tier3_lifecycle]
  · simp [calculate_tier4_intergenerational]

/-! ## Claim C5 -/

/-- C5: the Tier 2 per-tier dollar table does match the documented values
(17900 / 9900 / 5150 / 1000 per family), but when the tier counts come
from the journey table the 150-185 band is named `"deep_cliff"` while
`calculate_tier2_taxpayer` reads the key `"working_progress"` (and the
130-150 band `"liheap_childcare"` vs `"snap_cliff"`), so five journeys at
FPL 160 contribute zero benefits-cost avoidance. -/
theorem c5_tier2_journey_key_mismatch :
    (build_single_journey 1 [] (some ⟨none, some 160, none, none, none, none⟩)
        none none [] 0).cliff_tier = "deep_cliff" ∧
    journey_tier_counts (List.replicate 5 (build_single_journey 1 []
        (some ⟨none, some 160, none, none, none, none⟩) none none [] 0)) "deep_cliff" = 5 ∧
    journey_tier_counts (List.replicate 5 (build_single_journey 1 []
        (some ⟨none, some 160, none, none, none, none⟩) none none [] 0)) "working_progress" = 0 ∧
    (calculate_tier2_taxpayer 0 (journey_tier_counts (List.replicate 5
        (build_single_journey 1 [] (some ⟨none, some 160, none, none, none, none⟩)
          none none [] 0))) 25000000).tier3_100plus.count = 0 ∧
    (calculate_tier2_taxpayer 0 (journey_tier_counts (List.replicate 5
        (build_single_journey 1 [] (some ⟨none, some 160, none, none, none, none⟩)
          none none [] 0))) 25000000).tier3_100plus.per_family_savings = 5150 ∧
    (calculate_tier2_taxpayer 0 (journey_tier_counts (List.replicate 5
        (build_single_journey 1 [] (some ⟨none, some 160, none, none, none, none⟩)
          none none [] 0))) 25000000).total_benefits = 0 := by
  have hgrad : journey_tier_counts (List.replicate 5 (build_single_journey 1 []
      (some ⟨none, some 160, none, none, none, none⟩) none none [] 0)) "graduated" = 0 := by
    decide
  have hnear : journey_tier_counts (List.replicate 5 (build_single_journey 1 []
      (some ⟨none, some 160, none, none, none, none⟩) none none [] 0)) "near_graduation" = 0 := by
    decide
  have hwork : journey_tier_counts (List.replicate 5 (build_single_journey 1 []
      (some ⟨none, some 160, none, none, none, none⟩) none none [] 0)) "working_progress" = 0 := by
    decide
  have hsnap : journey_tier_counts (List.replicate 5 (build_single_journey 1 []
      (some ⟨none, some 160, none, none, none, none⟩) none none [] 0)) "snap_cliff" = 0 := by
    decide
  refine ⟨by decide, by decide, hwork, ?_, ?_, ?_⟩
  · show journey_tier_counts _ "working_progress" = 0
    exact hwork
  · rfl
  · show (journey_tier_counts (List.replicate 5 (build_single_journey 1 []
        (some ⟨none, some 160, none, none, none, none⟩) none none [] 0)) "graduated" : ℚ) *
          (tenncare_adult + snap_household + tanf_cash + childcare_full) +
        (journey_tier_counts (List.replicate 5 (build_single_journey 1 []
          (some ⟨none, some 160, none, none, none, none⟩) none none [] 0)) "near_graduation" : ℚ) *
          (snap_household + tanf_cash + childcare_reduced) +
        (journey_tier_counts (List.replicate 5 (build_single_journey 1 []
          (some ⟨none, some 160, none, none, none, none⟩) none none [] 0)) "working_progress" : ℚ) *
          (tanf_cash + snap_household * (5/10)) +
        (journey_tier_counts (List.replicate 5 (build_single_journey 1 []
          (some ⟨none, some 160, none, none, none, none⟩) none none [] 0)) "snap_cliff" : ℚ) * 1000 = 0
    rw [hgrad, hnear, hwork, hsnap]
    norm_num

end EUC
